import Mathlib

/-!
Verification development for the apple-dev-mcp-server repository.

The repository's core logic lives in three TypeScript modules:

* `src/tools/xcode-diagnostic-analyzer.ts` — `analyzeBuildLog` matches an
  ordered table of regular-expression rules (`ERROR_PATTERNS`) against a
  build log and renders the findings, with a fallback report when nothing
  matches;
* `src/tools/fetch-apple-docs.ts` — `fetchAppleDocs` performs a cascade of
  remote documentation lookups and falls back to templated text on failure;
* the Swift-evolution checker — `compareVersions` decides whether a target
  Swift version satisfies a proposal's required version.

This file gives a shallow embedding of those functions.  Text is modelled
as `List Char` (one entry per UTF-16ish code point; all the literals that
matter are ASCII).  JavaScript's case-insensitive (`/i`) regular-expression
matching over ASCII pattern literals is realised by lowercasing both the
subject text and the pattern literals; `String.prototype.toLowerCase` and
`/i` folding agree with per-character ASCII lowercasing on every character
that can match an ASCII literal.
-/

/-- ASCII lowercasing of one character, the fragment of
`String.prototype.toLowerCase` relevant to the ASCII pattern literals. -/
def lowerChar (c : Char) : Char :=
  if 'A' ≤ c ∧ c ≤ 'Z' then Char.ofNat (c.toNat + 32) else c

/-- Lowercase a whole text. -/
def lowerL (cs : List Char) : List Char := cs.map lowerChar

/-- JavaScript `\w` over lowercased text: `[a-z0-9_]` (uppercase letters
have already been folded to lowercase). -/
def isWordChar (c : Char) : Bool :=
  ('a' ≤ c && c ≤ 'z') || ('0' ≤ c && c ≤ '9') || c == '_'

/-- JavaScript `.` without the `s` flag: any character except a line
terminator (`\n`, `\r`, U+2028, U+2029). -/
def isDotChar (c : Char) : Bool :=
  !(c == '\n' || c == '\r' || c == Char.ofNat 0x2028 || c == Char.ofNat 0x2029)

/-- The regular-expression fragment used by `ERROR_PATTERNS`: literal runs,
greedy `\w+`, greedy `.+`, an optional single character (`s?`),
concatenation and alternation.  Pattern literals are stored lowercased;
matching happens against the lowercased subject text. -/
inductive Regex where
  | lit : List Char → Regex
  | wplus : Regex
  | dplus : Regex
  | optChar : Char → Regex
  | seq : Regex → Regex → Regex
  | alt : Regex → Regex → Regex
deriving DecidableEq

/-- Drop a literal from the front of the text, if it is there. -/
def dropLit : List Char → List Char → Option (List Char)
  | [], cs => some cs
  | _ :: _, [] => none
  | p :: ps, c :: cs => if c == p then dropLit ps cs else none

/-- Suffixes remaining after consuming one-or-more `p`-characters, longest
consumption first — the backtracking order of a greedy `+`. -/
def plusSuffixes (p : Char → Bool) : List Char → List (List Char)
  | [] => []
  | c :: cs => if p c then plusSuffixes p cs ++ [cs] else []

/-- All suffixes remaining after a match of `r` at the front of the text,
in JavaScript backtracking-priority order (greedy quantifiers longest
first, alternation left first). -/
def Regex.run : Regex → List Char → List (List Char)
  | .lit s, cs => match dropLit s cs with
    | some rest => [rest]
    | none => []
  | .wplus, cs => plusSuffixes isWordChar cs
  | .dplus, cs => plusSuffixes isDotChar cs
  | .optChar d, cs =>
      (match cs with
       | c :: rest => if c == d then [rest] else []
       | [] => []) ++ [cs]
  | .seq a b, cs => (a.run cs).flatMap b.run
  | .alt a b, cs => a.run cs ++ b.run cs

/-- Length of the preferred match of `r` at the very start of `cs`,
if any: how many characters the highest-priority match consumes. -/
def findLen (r : Regex) (cs : List Char) : Option Nat :=
  match r.run cs with
  | rest :: _ => some (cs.length - rest.length)
  | [] => none

/-- Leftmost match: start index and length of the first match of `r`
in `cs`, scanning start positions left to right as `String.prototype.match`
does with a non-global regular expression. -/
def findPos (r : Regex) : List Char → Option (Nat × Nat)
  | [] =>
      match findLen r [] with
      | some n => some (0, n)
      | none => none
  | c :: cs =>
      match findLen r (c :: cs) with
      | some n => some (0, n)
      | none => (findPos r cs).map (fun p => (p.1 + 1, p.2))

/-- The matched substring (`match[0]`) of the first match of `r` in `text`:
the match is located on the lowercased text (realising the `/i` flag) and
the corresponding slice of the original text is returned. -/
def firstMatchL (r : Regex) (text : List Char) : Option (List Char) :=
  (findPos r (lowerL text)).map (fun p => (text.drop p.1).take p.2)

/-- Shorthand for a literal regex from a string (stored as written; the
rule constructors below only pass lowercase literals). -/
def rlit (s : String) : Regex := .lit s.data

/-- Severity of a `DiagnosticResult` (`"error" | "warning" | "note"` in the
TypeScript interface). -/
inductive Severity where
  | error
  | warning
  | note
deriving DecidableEq, Repr

/-- The `DiagnosticResult` interface of `xcode-diagnostic-analyzer.ts`. -/
structure DiagnosticResult where
  errorType : String
  severity : Severity
  message : String
  explanation : String
  fixItSuggestions : List String
  relatedDocs : List String
  codeExample : Option String
deriving DecidableEq, Repr

/-- One entry of the `ERROR_PATTERNS` table. -/
structure ErrorRule where
  pattern : Regex
  type : String
  explanation : String
  fixIts : List String
  docs : List String
deriving DecidableEq

/-- Rule 1, pattern `/cannot find type '(\w+)' in scope/i`. -/
def typeNotFoundRule : ErrorRule where
  pattern := .seq (rlit "cannot find type '") (.seq .wplus (rlit "' in scope"))
  type := "Type Not Found"
  explanation := "The compiler cannot find a type with this name. This usually means the type isn't imported, doesn't exist, or is misspelled."
  fixIts := ["Import the module containing this type",
    "Check for typos in the type name",
    "Ensure the type is declared as public if it's from another module",
    "Add the framework to your target's dependencies"]
  docs := ["https://developer.apple.com/documentation/swift/importing_modules"]

/-- Rule 2, pattern `/cannot find '(\w+)' in scope/i`. -/
def symbolNotFoundRule : ErrorRule where
  pattern := .seq (rlit "cannot find '") (.seq .wplus (rlit "' in scope"))
  type := "Symbol Not Found"
  explanation := "The compiler cannot find a variable, function, or other symbol with this name."
  fixIts := ["Check spelling of the identifier",
    "Ensure the symbol is declared before use",
    "Import the required module",
    "Check access control (private/internal/public)"]
  docs := ["https://docs.swift.org/swift-book/documentation/the-swift-programming-language/accesscontrol/"]

/-- Rule 3, pattern `/value of type '(.+)' has no member '(\w+)'/i`. -/
def memberNotFoundRule : ErrorRule where
  pattern := .seq (rlit "value of type '")
    (.seq .dplus (.seq (rlit "' has no member '") (.seq .wplus (rlit "'"))))
  type := "Member Not Found"
  explanation := "You're trying to access a property or method that doesn't exist on this type."
  fixIts := ["Check the API documentation for available members",
    "Ensure you're using the correct type",
    "The API might have been renamed or deprecated",
    "Check if you need to cast to a different type"]
  docs := ["https://developer.apple.com/documentation/"]

/-- Rule 4, pattern
`/cannot convert value of type '(.+)' to expected argument type '(.+)'/i`. -/
def typeMismatchRule : ErrorRule where
  pattern := .seq (rlit "cannot convert value of type '")
    (.seq .dplus (.seq (rlit "' to expected argument type '") (.seq .dplus (rlit "'"))))
  type := "Type Mismatch"
  explanation := "The types don't match - you're passing a value of one type where another type is expected."
  fixIts := ["Use explicit type conversion if appropriate",
    "Check if the API expects an optional type",
    "Use a different initializer or method",
    "Ensure generic type parameters match"]
  docs := ["https://docs.swift.org/swift-book/documentation/the-swift-programming-language/typecasting/"]

/-- Rule 5, pattern `/ambiguous use of '(\w+)'/i`. -/
def ambiguousUseRule : ErrorRule where
  pattern := .seq (rlit "ambiguous use of '") (.seq .wplus (rlit "'"))
  type := "Ambiguous Reference"
  explanation := "Multiple declarations match this name and the compiler can't determine which one to use."
  fixIts := ["Add explicit type annotations",
    "Use fully qualified names (Module.Type)",
    "Provide more context to help type inference",
    "Check for conflicting imports"]
  docs := ["https://docs.swift.org/swift-book/documentation/the-swift-programming-language/"]

/-- Rule 6, pattern `/missing argument for parameter '(\w+)'/i`. -/
def missingArgumentRule : ErrorRule where
  pattern := .seq (rlit "missing argument for parameter '") (.seq .wplus (rlit "'"))
  type := "Missing Argument"
  explanation := "A required parameter wasn't provided when calling a function or initializer."
  fixIts := ["Add the missing argument",
    "Check if there's an overload that doesn't require this parameter",
    "Provide a default value if creating your own function"]
  docs := ["https://docs.swift.org/swift-book/documentation/the-swift-programming-language/functions/"]

/-- Rule 7, pattern `/use of unresolved identifier '(\w+)'/i`. -/
def unresolvedIdentifierRule : ErrorRule where
  pattern := .seq (rlit "use of unresolved identifier '") (.seq .wplus (rlit "'"))
  type := "Unresolved Identifier"
  explanation := "The compiler doesn't recognize this identifier in the current scope."
  fixIts := ["Declare the variable/constant before using it",
    "Check for typos",
    "Ensure proper scope (the declaration might be in a different scope)",
    "Import required modules"]
  docs := ["https://docs.swift.org/swift-book/documentation/the-swift-programming-language/declarations/"]

/-- Rule 8, pattern `/type '(.+)' does not conform to protocol '(.+)'/i`. -/
def protocolConformanceRule : ErrorRule where
  pattern := .seq (rlit "type '")
    (.seq .dplus (.seq (rlit "' does not conform to protocol '") (.seq .dplus (rlit "'"))))
  type := "Protocol Conformance Error"
  explanation := "Your type declares conformance to a protocol but doesn't implement all required members."
  fixIts := ["Implement all required protocol methods and properties",
    "Check for method signature mismatches",
    "Add missing associated types",
    "Use protocol extension default implementations where available"]
  docs := ["https://docs.swift.org/swift-book/documentation/the-swift-programming-language/protocols/"]

/-- Rule 9, pattern `/call can throw, but it is not marked with 'try'/i`. -/
def missingTryRule : ErrorRule where
  pattern := rlit "call can throw, but it is not marked with 'try'"
  type := "Missing Try Keyword"
  explanation := "You're calling a throwing function without the 'try' keyword."
  fixIts := ["Add 'try' before the throwing call",
    "Use 'try?' for optional result (returns nil on error)",
    "Use 'try!' if you're certain it won't throw (crashes on error)",
    "Wrap in do-catch block"]
  docs := ["https://docs.swift.org/swift-book/documentation/the-swift-programming-language/errorhandling/"]

/-- Rule 10, pattern `/cannot use mutating member on immutable value/i`. -/
def mutabilityRule : ErrorRule where
  pattern := rlit "cannot use mutating member on immutable value"
  type := "Mutability Error"
  explanation := "You're trying to modify a value that is immutable (declared with 'let' or accessed through a non-mutating context)."
  fixIts := ["Change 'let' to 'var' if the value should be mutable",
    "Mark the method as 'mutating' if in a struct",
    "Check if you're in a computed property or closure that captures self",
    "Use a class instead of struct if reference semantics are needed"]
  docs := ["https://docs.swift.org/swift-book/documentation/the-swift-programming-language/methods/"]

/-- Rule 11, pattern
`/actor-isolated property '(\w+)' can not be (mutated|referenced) from/i`. -/
def actorIsolationRule : ErrorRule where
  pattern := .seq (rlit "actor-isolated property '")
    (.seq .wplus (.seq (rlit "' can not be ")
      (.seq (.alt (rlit "mutated") (rlit "referenced")) (rlit " from"))))
  type := "Actor Isolation Error"
  explanation := "You're trying to access actor-isolated state from outside the actor's context."
  fixIts := ["Use 'await' to access actor-isolated members",
    "Mark the calling function as 'async'",
    "Use 'nonisolated' for members that don't need isolation",
    "Consider if the member should be on a different actor"]
  docs := ["https://docs.swift.org/swift-book/documentation/the-swift-programming-language/concurrency/"]

/-- Rule 12, pattern `/linker command failed|Undefined symbols? for architecture/i`. -/
def linkerErrorRule : ErrorRule where
  pattern := .alt (rlit "linker command failed")
    (.seq (rlit "undefined symbol") (.seq (.optChar 's') (rlit " for architecture")))
  type := "Linker Error"
  explanation := "The linker couldn't find implementations for referenced symbols. This is typically a configuration issue."
  fixIts := ["Ensure all required frameworks are linked in Build Phases",
    "Check that source files are added to the correct target",
    "Verify library search paths in Build Settings",
    "Clean build folder (Cmd+Shift+K) and rebuild"]
  docs := ["https://developer.apple.com/documentation/xcode/configuring-a-new-target-in-your-project"]

/-- Rule 13, pattern `/main actor-isolated|@MainActor/i`. -/
def mainActorRule : ErrorRule where
  pattern := .alt (rlit "main actor-isolated") (rlit "@mainactor")
  type := "Main Actor Isolation"
  explanation := "Code must run on the main actor (main thread) for UI updates or accessing main-actor-isolated properties."
  fixIts := ["Add @MainActor to the enclosing type or function",
    "Use MainActor.run \x7b \x7d for isolated blocks",
    "Use 'await MainActor.run \x7b \x7d' from async context",
    "Check if the property needs main actor isolation"]
  docs := ["https://developer.apple.com/documentation/swift/mainactor"]

/-- Rule 14, pattern `/'@Sendable' closure|capture of '(.+)' with non-sendable type/i`. -/
def sendableRule : ErrorRule where
  pattern := .alt (rlit "'@sendable' closure")
    (.seq (rlit "capture of '") (.seq .dplus (rlit "' with non-sendable type")))
  type := "Sendable Conformance Error"
  explanation := "A closure or type crossing concurrency boundaries must be Sendable to ensure thread safety."
  fixIts := ["Make the captured type conform to Sendable",
    "Use 'sending' parameter modifier (Swift 6)",
    "Capture only Sendable values in the closure",
    "Consider using an actor instead"]
  docs := ["https://docs.swift.org/swift-book/documentation/the-swift-programming-language/concurrency/"]

/-- The ordered rule table `ERROR_PATTERNS`. -/
def ERROR_PATTERNS : List ErrorRule :=
  [typeNotFoundRule, symbolNotFoundRule, memberNotFoundRule, typeMismatchRule,
   ambiguousUseRule, missingArgumentRule, unresolvedIdentifierRule,
   protocolConformanceRule, missingTryRule, mutabilityRule, actorIsolationRule,
   linkerErrorRule, mainActorRule, sendableRule]

/-- Case-insensitive-after-lowering substring test: does `needle` occur in
`haystack`?  Used for `String.prototype.includes` and for the `test` calls
of the marker regexes `/error:/i` and `/warning:/i`. -/
def hasLit (needle : List Char) : List Char → Bool
  | [] => needle.isEmpty
  | c :: cs => (dropLit needle (c :: cs)).isSome || hasLit needle cs

/-- The per-finding severity expression of `analyzeBuildLog`:
`buildLog.toLowerCase().includes("warning") ? "warning" : "error"`. -/
def severityOf (text : List Char) : Severity :=
  if hasLit "warning".data (lowerL text) then Severity.warning else Severity.error

/-- The object literal pushed onto `diagnostics` when a rule matches. -/
def mkDiag (r : ErrorRule) (m : List Char) (sv : Severity) : DiagnosticResult where
  errorType := r.type
  severity := sv
  message := String.mk m
  explanation := r.explanation
  fixItSuggestions := r.fixIts
  relatedDocs := r.docs
  codeExample := none

/-- The matching loop of `analyzeBuildLog` (lines 209–221): for each rule
of `ERROR_PATTERNS` in declaration order, take the first match of its
pattern in the log, and push one diagnostic when there is one. -/
def computeDiagnosticsL (text : List Char) : List DiagnosticResult :=
  ERROR_PATTERNS.foldl
    (fun acc r =>
      match firstMatchL r.pattern text with
      | some m => acc ++ [mkDiag r m (severityOf text)]
      | none => acc)
    []

/-- The severity emoji of `formatDiagnostics`. -/
def severityEmoji (sv : Severity) : String :=
  match sv with
  | Severity.error => "🔴"
  | Severity.warning => "🟡"
  | Severity.note => "🔵"

/-- One finding block rendered by the loop of `formatDiagnostics`
(`i` is the zero-based loop index). -/
def diagBlock (i : Nat) (d : DiagnosticResult) : String :=
  "### " ++ severityEmoji d.severity ++ " " ++ toString (i + 1) ++ ". " ++ d.errorType ++ "\n\n"
    ++ "**Message:**\n```\n" ++ d.message ++ "\n```\n\n"
    ++ "**Explanation:**\n" ++ d.explanation ++ "\n\n"
    ++ "**Fix-it Suggestions:**\n"
    ++ String.join (d.fixItSuggestions.map (fun f => "- " ++ f ++ "\n")) ++ "\n"
    ++ (if d.relatedDocs.length > 0 then
          "**Related Documentation:**\n"
            ++ String.join (d.relatedDocs.map (fun doc => "- [" ++ doc ++ "](" ++ doc ++ ")\n"))
            ++ "\n"
        else "")
    ++ "---\n\n"

/-- The fixed general-troubleshooting block appended by `formatDiagnostics`. -/
def generalTips : String :=
  "## General Troubleshooting\n\n"
    ++ "1. **Clean Build:** Press `Cmd+Shift+K` to clean the build folder\n"
    ++ "2. **Derived Data:** Delete `~/Library/Developer/Xcode/DerivedData`\n"
    ++ "3. **SPM Cache:** Reset package caches via `File > Packages > Reset Package Caches`\n"
    ++ "4. **Restart Xcode:** Sometimes a fresh start helps\n"
    ++ "5. **Check Swift Version:** Ensure your Swift version matches the code requirements\n"

/-- The report header of `formatDiagnostics`. -/
def fmtHeader : String := "# Xcode Build Diagnostic Analysis\n\n"

/-- The optional context line of `formatDiagnostics`: JavaScript tests
`if (context)`, so an absent or empty context adds nothing. -/
def ctxBlock (ctx : Option String) : String :=
  match ctx with
  | some c => if c = "" then "" else "**Context:** " ++ c ++ "\n\n"
  | none => ""

/-- The issue-count line of `formatDiagnostics`. -/
def countLine (n : Nat) : String := "## Found " ++ toString n ++ " Issue(s)\n\n"

/-- Function `formatDiagnostics(diagnostics, originalLog, context)`.  The
`originalLog` parameter is accepted but never read, as in the source. -/
def formatDiagnosticsL (diags : List DiagnosticResult) (originalLog : List Char)
    (ctx : Option String) : String :=
  fmtHeader ++ ctxBlock ctx ++ countLine diags.length
    ++ String.join (diags.enum.map (fun p => diagBlock p.1 p.2))
    ++ generalTips

/-- Marker test `/error:/i.test(buildLog)`. -/
def hasErrorMarker (text : List Char) : Bool := hasLit "error:".data (lowerL text)

/-- Marker test `/warning:/i.test(buildLog)`. -/
def hasWarningMarker (text : List Char) : Bool := hasLit "warning:".data (lowerL text)

/-- The fixed header of `analyzeUnknownError`. -/
def unknownHeader : String := "# Build Log Analysis\n\n"

/-- The no-marker branch of `analyzeUnknownError`. -/
def noClearBlock : String :=
  "## ✅ No Clear Errors Detected\n\n"
    ++ "The build log doesn't contain obvious error or warning markers.\n\n"

/-- The opening of the raw-log excerpt block of `analyzeUnknownError`. -/
def rawLogPre : String := "## ⚠️ Build Issues Detected\n\n**Raw Log:**\n```\n"

/-- The closing of the raw-log excerpt block. -/
def rawLogPost : String := "\n```\n\n"

/-- The truncation marker appended when the log exceeds 2000 characters. -/
def truncationMark : String := "\n...(truncated)"

/-- The fixed suggestions and common-causes blocks of `analyzeUnknownError`. -/
def unknownSuggestions : String :=
  "## Suggestions\n\n"
    ++ "1. **Check the full error message** in Xcode's Issue Navigator (Cmd+5)\n"
    ++ "2. **Click on the error** to navigate to the problematic code\n"
    ++ "3. **Read Xcode's Fix-it suggestions** (click the red/yellow indicator)\n"
    ++ "4. **Search the error message** on developer.apple.com or forums\n\n"
    ++ "## Common Build Failure Causes\n\n"
    ++ "- Missing import statements\n"
    ++ "- Syntax errors in Swift code\n"
    ++ "- Type mismatches\n"
    ++ "- Missing required frameworks\n"
    ++ "- Incorrect deployment target\n"
    ++ "- Code signing issues\n"
    ++ "- Swift version incompatibilities\n"

/-- Function `analyzeUnknownError(buildLog, context)` (lines 286–317).  The `context`
parameter is accepted but never read, as in the source.  The excerpt is
`buildLog.slice(0, 2000)` with the truncation marker appended when
`buildLog.length > 2000`. -/
def analyzeUnknownError (buildLog : String) (ctx : Option String) : String :=
  unknownHeader
    ++ ((if !hasErrorMarker buildLog.data && !hasWarningMarker buildLog.data then
          noClearBlock
        else
          rawLogPre ++ String.mk (buildLog.data.take 2000)
            ++ ((if 2000 < buildLog.data.length then truncationMark else "") ++ rawLogPost))
      ++ unknownSuggestions)

/-- Function `analyzeBuildLog(buildLog, errorCode?, context?)` (lines 198–229).
The `errorCode` parameter is accepted but never read, as in the source. -/
def analyzeBuildLog (buildLog : String) (errorCode ctx : Option String) : String :=
  let diagnostics := computeDiagnosticsL buildLog.data
  if diagnostics.length = 0 then analyzeUnknownError buildLog ctx
  else formatDiagnosticsL diagnostics buildLog.data ctx

/-- The ambient runtime state an invocation can observe: the only piece of
it any of these tools ever reads is the current date (`new Date()` in
`formatLiveDoc`); the diagnostic analyzer reads none of it. -/
structure Env where
  today : String

/-- The `xcode_diagnostic_analyzer` tool invocation as dispatched by the
server handler in `index.ts`: the ambient environment is made explicit,
and `analyzeBuildLog` is called on the request arguments. -/
def runXcodeDiagnosticTool (env : Env) (buildLog : String)
    (errorCode ctx : Option String) : String :=
  analyzeBuildLog buildLog errorCode ctx

/-- The per-rule finding, as an optional value: `some` exactly when the
rule's pattern matches somewhere in the text.  `computeDiagnosticsL` is
the declaration-ordered concatenation of these. -/
def findingOf (text : List Char) (r : ErrorRule) : Option DiagnosticResult :=
  (firstMatchL r.pattern text).map (fun m => mkDiag r m (severityOf text))

/-- Sufficient syntactic condition for a pattern to fail on any text whose
first character is `c`: its leading mandatory atom rejects `c` (on every
alternation branch). -/
def failsOn : Regex → Char → Bool
  | .lit [], _ => false
  | .lit (p :: _), c => !(c == p)
  | .wplus, c => !isWordChar c
  | .dplus, c => !isDotChar c
  | .optChar _, _ => false
  | .seq a _, c => failsOn a c
  | .alt a b, c => failsOn a c && failsOn b c

/-- Sufficient syntactic condition for a pattern to fail on the empty
text: it demands at least one character (on every alternation branch). -/
def emptyFails : Regex → Bool
  | .lit [] => false
  | .lit (_ :: _) => true
  | .wplus => true
  | .dplus => true
  | .optChar _ => false
  | .seq a _ => emptyFails a
  | .alt a b => emptyFails a && emptyFails b

/-- A concrete over-2000-character build log used to exercise the
truncation branch of the fallback report: an `error:` marker followed by
2000 filler characters no rule matches. -/
def c4LongLog : String := "error: " ++ String.mk (List.replicate 2000 'x')

/-- A platform entry of the documentation JSON metadata. -/
structure PlatformJ where
  name : String
  introducedAt : String
deriving DecidableEq

/-- A module entry of the documentation JSON metadata. -/
structure ModuleJ where
  name : String
deriving DecidableEq

/-- A fragment entry of the documentation JSON metadata (declared in the
`AppleDocJSON` interface; never read by the code). -/
structure FragmentJ where
  text : String
  kind : String
deriving DecidableEq

/-- The `metadata` object of the documentation JSON. -/
structure MetadataJ where
  title : Option String
  roleHeading : Option String
  platforms : Option (List PlatformJ)
  modules : Option (List ModuleJ)
  fragments : Option (List FragmentJ)
deriving DecidableEq

/-- An `abstract` entry of the documentation JSON. -/
structure AbstractItemJ where
  text : String
  type : String
deriving DecidableEq

/-- Inline content of a paragraph, as consumed by `parseContentSection`. -/
inductive InlineJ where
  | textItem (text : String)
  | codeVoice (code : String)
  | reference (identifier : Option String)
  | otherInline
deriving DecidableEq

/-- A content item of a primary content section, as consumed by
`parseContentSection` and `extractCodeExamples`.  `heading` and
`codeListing` carry the optional `level` / `syntax` / `code` fields the
code reads with `||` defaults. -/
inductive ContentJ where
  | heading (level : Option Nat) (text : String)
  | paragraph (inlineContent : Option (List InlineJ))
  | codeListing (codeSyntax : Option String) (code : Option (List String))
  | otherContent
deriving DecidableEq

/-- One token of a declaration. -/
structure DeclTokenJ where
  text : String
  kind : String
deriving DecidableEq

/-- One declaration group of the `declarations` section. -/
structure DeclarationJ where
  tokens : List DeclTokenJ
deriving DecidableEq

/-- One entry of `primaryContentSections`. -/
structure SectionJ where
  kind : String
  content : Option (List ContentJ)
  declarations : Option (List DeclarationJ)
deriving DecidableEq

/-- The documentation JSON payload (`AppleDocJSON`). -/
structure AppleDocJSON where
  metadata : Option MetadataJ
  abstract : Option (List AbstractItemJ)
  primaryContentSections : Option (List SectionJ)
deriving DecidableEq

/-- Outcome of one HTTP fetch of a documentation URL, covering every
behaviour of the remote endpoint: the transport throws (`netError`), the
response has a non-success status (`notOk`), the body fails to parse as
JSON (`badJson`), or a document is obtained. -/
inductive FetchOutcome where
  | netError
  | notOk
  | badJson
  | ok (doc : AppleDocJSON)

/-- Constant `APPLE_DOCS_API`. -/
def APPLE_DOCS_API : String := "https://developer.apple.com/tutorials/data/documentation"

/-- The `FRAMEWORK_PATHS` table. -/
def FRAMEWORK_PATHS : List (String × List String) :=
  [("swiftui", ["swiftui"]), ("uikit", ["uikit"]), ("foundation", ["foundation"]),
   ("observation", ["observation"]), ("swiftdata", ["swiftdata"]), ("combine", ["combine"]),
   ("realitykit", ["realitykit"]), ("arkit", ["arkit"]), ("coredata", ["coredata"]),
   ("coreml", ["coreml"]), ("mapkit", ["mapkit"]), ("cloudkit", ["cloudkit"]),
   ("healthkit", ["healthkit"]), ("storekit", ["storekit"]),
   ("avfoundation", ["avfoundation"]), ("swift", ["swift", "observation"])]

/-- The `API_MAPPINGS` table, as `(key, framework, path)` triples.  The
`framework` component is stored but never read, as in the source. -/
def API_MAPPINGS : List (String × String × String) :=
  [("navigationstack", "swiftui", "swiftui/navigationstack"),
   ("navigationlink", "swiftui", "swiftui/navigationlink"),
   ("navigationpath", "swiftui", "swiftui/navigationpath"),
   ("navigationsplitview", "swiftui", "swiftui/navigationsplitview"),
   ("list", "swiftui", "swiftui/list"),
   ("form", "swiftui", "swiftui/form"),
   ("sheet", "swiftui", "swiftui/view/sheet(ispresented:ondismiss:content:)"),
   ("state", "swiftui", "swiftui/state"),
   ("binding", "swiftui", "swiftui/binding"),
   ("environment", "swiftui", "swiftui/environment"),
   ("environmentobject", "swiftui", "swiftui/environmentobject"),
   ("stateobject", "swiftui", "swiftui/stateobject"),
   ("observedobject", "swiftui", "swiftui/observedobject"),
   ("view", "swiftui", "swiftui/view"),
   ("text", "swiftui", "swiftui/text"),
   ("button", "swiftui", "swiftui/button"),
   ("image", "swiftui", "swiftui/image"),
   ("asyncimage", "swiftui", "swiftui/asyncimage"),
   ("lazyvgrid", "swiftui", "swiftui/lazyvgrid"),
   ("lazyhgrid", "swiftui", "swiftui/lazyhgrid"),
   ("scrollview", "swiftui", "swiftui/scrollview"),
   ("tabview", "swiftui", "swiftui/tabview"),
   ("alert", "swiftui", "swiftui/view/alert(ispresented:content:)"),
   ("toolbar", "swiftui", "swiftui/view/toolbar(content:)-5w0tj"),
   ("searchable", "swiftui", "swiftui/view/searchable(text:placement:prompt:)"),
   ("task", "swiftui", "swiftui/view/task(priority:_:)"),
   ("onappear", "swiftui", "swiftui/view/onappear(perform:)"),
   ("ondisappear", "swiftui", "swiftui/view/ondisappear(perform:)"),
   ("observable", "observation", "observation/observable"),
   ("@observable", "observation", "observation/observable()"),
   ("@model", "swiftdata", "swiftdata/model()"),
   ("modelcontainer", "swiftdata", "swiftdata/modelcontainer"),
   ("modelcontext", "swiftdata", "swiftdata/modelcontext"),
   ("@query", "swiftdata", "swiftdata/query"),
   ("publisher", "combine", "combine/publisher"),
   ("subject", "combine", "combine/subject"),
   ("passthroughsubject", "combine", "combine/passthroughsubject"),
   ("currentvaluesubject", "combine", "combine/currentvaluesubject"),
   ("url", "foundation", "foundation/url"),
   ("urlsession", "foundation", "foundation/urlsession"),
   ("data", "foundation", "foundation/data"),
   ("date", "foundation", "foundation/date"),
   ("userdefaults", "foundation", "foundation/userdefaults"),
   ("notification", "foundation", "foundation/notification"),
   ("notificationcenter", "foundation", "foundation/notificationcenter"),
   ("uiviewcontroller", "uikit", "uikit/uiviewcontroller"),
   ("uitableview", "uikit", "uikit/uitableview"),
   ("uicollectionview", "uikit", "uikit/uicollectionview"),
   ("uinavigationcontroller", "uikit", "uikit/uinavigationcontroller")]

/-- Property lookup on an object literal modelled as an association list
(keys are distinct, so first-match lookup is object lookup). -/
def lookupKey {α : Type} (tbl : List (String × α)) (k : String) : Option α :=
  (tbl.find? (fun p => p.1 == k)).map (fun p => p.2)

/-- Normalisation `query.toLowerCase().replace(/^@/, "")`: lowercase, then strip one
leading `@` if present. -/
def normalizeQuery (q : String) : String :=
  let lq := String.mk (lowerL q.data)
  match lq.data with
  | '@' :: rest => String.mk rest
  | _ => lq

/-- JavaScript `a || b` on strings: `b` when `a` is absent or empty. -/
def orElseStr (o : Option String) (dflt : String) : String :=
  match o with
  | some s => if s = "" then dflt else s
  | none => dflt

/-- Function `getDocPath(query, framework?)`: direct mapping, `@`-prefixed mapping,
then a framework-derived path.  `if (framework)` is false for an absent or
empty framework. -/
def getDocPath (query : String) (framework : Option String) : Option String :=
  let nq := normalizeQuery query
  match lookupKey API_MAPPINGS nq with
  | some m => some m.2
  | none =>
    match lookupKey API_MAPPINGS ("@" ++ nq) with
    | some m => some m.2
    | none =>
      match framework with
      | some fw => if fw = "" then none else some (String.mk (lowerL fw.data) ++ "/" ++ nq)
      | none => none

/-- Function `fetchLiveDoc(docPath)`: one fetch of the documentation URL; every
failure outcome — thrown transport error, non-`ok` status, JSON parse
failure — is caught and becomes `null`. -/
def fetchLiveDoc (oracle : String → FetchOutcome) (docPath : String) : Option AppleDocJSON :=
  match oracle (APPLE_DOCS_API ++ "/" ++ docPath ++ ".json") with
  | FetchOutcome.netError => none
  | FetchOutcome.notOk => none
  | FetchOutcome.badJson => none
  | FetchOutcome.ok doc => some doc

/-- The early-returning `for` loops of `fetchAppleDocs`: try
`{path}/{query}` for each candidate path, returning the first document
obtained. -/
def tryPathsFetch (oracle : String → FetchOutcome) (nq : String) :
    List String → Option AppleDocJSON
  | [] => none
  | p :: ps =>
    match fetchLiveDoc oracle (p ++ "/" ++ nq) with
    | some d => some d
    | none => tryPathsFetch oracle nq ps

/-- The `commonFrameworks` list of `fetchAppleDocs`. -/
def commonFrameworks : List String :=
  ["swiftui", "foundation", "uikit", "observation", "swiftdata", "combine"]

/-- Function `Array.prototype.join(sep)`. -/
def joinSep (sep : String) : List String → String
  | [] => ""
  | s :: ss => ss.foldl (fun a b => a ++ sep ++ b) s

/-- Normalisation `title.toLowerCase().replace(/[^a-z0-9]/g, "")` combined with the
framework, as in `getDocPathFromTitle`. -/
def getDocPathFromTitle (title framework : String) : String :=
  String.mk (lowerL framework.data) ++ "/"
    ++ String.mk ((lowerL title.data).filter
        (fun c => ('a' ≤ c && c ≤ 'z') || ('0' ≤ c && c ≤ '9')))

/-- Rendering of one inline content item in `parseContentSection`. -/
def inlineText : InlineJ → String
  | InlineJ.textItem t => t
  | InlineJ.codeVoice c => "`" ++ c ++ "`"
  | InlineJ.reference ident =>
      "**" ++ (match ident with
               | some i => ((i.splitOn "/").getLast?).getD ""
               | none => "") ++ "**"
  | InlineJ.otherInline => ""

/-- Rendering of one content item in `parseContentSection`: headings
(`level || 2`), paragraphs, and code listings (`syntax || "swift"`,
`code || []`). -/
def contentItemText : ContentJ → String
  | ContentJ.heading lvl t =>
      String.mk (List.replicate (match lvl with
        | some n => if n = 0 then 2 else n
        | none => 2) '#') ++ " " ++ t ++ "\n\n"
  | ContentJ.paragraph inl =>
      (match inl with
       | some items => String.join (items.map inlineText)
       | none => "") ++ "\n\n"
  | ContentJ.codeListing syn code =>
      "```" ++ orElseStr syn "swift" ++ "\n" ++ joinSep "\n" (code.getD []) ++ "\n```\n\n"
  | ContentJ.otherContent => ""

/-- Function `parseContentSection(content)`. -/
def parseContentSection (content : List ContentJ) : String :=
  String.join (content.map contentItemText)

/-- Function `extractCodeExamples(doc)`: the code listings of the `content`
section (`item.code` must be present; an empty array is truthy). -/
def extractCodeExamples (doc : AppleDocJSON) : List String :=
  match ((doc.primaryContentSections.getD []).find? (fun s => s.kind == "content")).bind
      (fun s => s.content) with
  | some items =>
      items.filterMap (fun it =>
        match it with
        | ContentJ.codeListing _ (some c) => some (joinSep "\n" c)
        | _ => none)
  | none => []

/-- Function `formatLiveDoc(doc, query, includeExamples)`; the `today` argument is
the date stamp `new Date().toISOString().split('T')[0]` read from the
ambient clock. -/
def formatLiveDoc (doc : AppleDocJSON) (query : String) (includeExamples : Bool)
    (today : String) : String :=
  let title := orElseStr (doc.metadata.bind (fun m => m.title)) query
  let roleHeading := orElseStr (doc.metadata.bind (fun m => m.roleHeading)) ""
  let framework :=
    orElseStr (((doc.metadata.bind (fun m => m.modules)).bind (fun ms => ms.head?)).map
      (fun m => m.name)) ""
  "# 📚 Apple Developer Documentation: " ++ title ++ "\n\n"
    ++ "> ✅ **Live documentation from developer.apple.com**\n\n"
    ++ (if roleHeading = "" then "" else "**Type:** " ++ roleHeading ++ "\n")
    ++ (if framework = "" then "" else "**Framework:** " ++ framework ++ "\n")
    ++ (match doc.metadata.bind (fun m => m.platforms) with
        | some ps =>
            if 0 < ps.length then
              "**Availability:** "
                ++ joinSep ", " (ps.map (fun p => p.name ++ " " ++ p.introducedAt ++ "+"))
                ++ "\n"
            else ""
        | none => "")
    ++ "**Documentation URL:** https://developer.apple.com/documentation/"
    ++ getDocPathFromTitle title framework ++ "\n\n"
    ++ (match ((doc.primaryContentSections.getD []).find?
          (fun s => s.kind == "declarations")).bind (fun s => s.declarations) with
        | some (d :: _) =>
            "## Declaration\n\n```swift\n"
              ++ String.join (d.tokens.map (fun t => t.text)) ++ "\n```\n\n"
        | some [] => ""
        | none => "")
    ++ (match doc.abstract with
        | some items =>
            if 0 < items.length then
              "## Overview\n\n" ++ String.join (items.map (fun a => a.text)) ++ "\n\n"
            else ""
        | none => "")
    ++ (match ((doc.primaryContentSections.getD []).find?
          (fun s => s.kind == "content")).bind (fun s => s.content) with
        | some c => parseContentSection c
        | none => "")
    ++ (if includeExamples then
          let ex := extractCodeExamples doc
          if 0 < ex.length then
            "## Code Examples\n\n"
              ++ String.join (ex.map (fun e => "```swift\n" ++ e ++ "\n```\n\n"))
          else ""
        else "")
    ++ "---\n*Documentation fetched live from Apple Developer on " ++ today ++ "*\n"

/-- Function `formatNotFound(query, framework?)`. -/
def formatNotFound (query : String) (framework : Option String) : String :=
  "# Apple Documentation: " ++ query ++ "\n\n"
    ++ "> ⚠️ Could not find live documentation for \"" ++ query ++ "\""
    ++ (match framework with
        | some fw => if fw = "" then "" else " in " ++ fw
        | none => "")
    ++ "\n\n"
    ++ "## Suggestions\n\n"
    ++ "1. Check the spelling of the API name\n"
    ++ "2. Try specifying the framework (e.g., \"SwiftUI\")\n"
    ++ "3. Use the full API name (e.g., \"NavigationStack\" instead of \"navigation\")\n\n"
    ++ "## Quick Links\n\n"
    ++ "- [Apple Developer Documentation](https://developer.apple.com/documentation/)\n"
    ++ "- [SwiftUI Documentation](https://developer.apple.com/documentation/swiftui)\n"
    ++ "- [Swift Documentation](https://developer.apple.com/documentation/swift)\n"
    ++ "- [WWDC Videos](https://developer.apple.com/videos/)\n"

/-- Function `formatError(query, framework, error)`: the catch-all error template of
`fetchAppleDocs` — unreachable in the model, as every failure of the remote
call is already caught inside `fetchLiveDoc`. -/
def formatError (query : String) (framework : Option String) : String :=
  "# Apple Documentation: " ++ query ++ "\n\n"
    ++ "> ❌ Error fetching documentation\n\n"
    ++ "An error occurred while fetching documentation. Please try again.\n\n"
    ++ "## Quick Links\n\n"
    ++ "- [Apple Developer Documentation](https://developer.apple.com/documentation/)\n"

/-- The lookup cascade of `fetchAppleDocs` (lines 132–180): direct
mapping, then the framework's paths, then the common frameworks, each step
attempting one remote fetch per candidate path and stopping at the first
document obtained. -/
def fetchCascade (oracle : String → FetchOutcome) (query : String)
    (framework : Option String) : Option AppleDocJSON :=
  let nq := normalizeQuery query
  match (match getDocPath nq framework with
         | some p => fetchLiveDoc oracle p
         | none => none) with
  | some doc => some doc
  | none =>
    match (match framework with
           | some fw =>
             if fw = "" then none
             else
               match lookupKey FRAMEWORK_PATHS (String.mk (lowerL fw.data)) with
               | some fwPaths => tryPathsFetch oracle nq fwPaths
               | none => none
           | none => none) with
    | some doc => some doc
    | none => tryPathsFetch oracle nq commonFrameworks

/-- Function `fetchAppleDocs(query, framework?, includeExamples = true)` (lines
132–180): the first document the cascade obtains is rendered (each `for`
loop of the source returns `formatLiveDoc` of the first successful fetch,
which is exactly the rendering of the cascade's first hit); with no hit
anywhere, the not-found template is returned. -/
def fetchAppleDocs (oracle : String → FetchOutcome) (today : String) (query : String)
    (framework : Option String) (includeExamples : Bool) : String :=
  match fetchCascade oracle query framework with
  | some doc => formatLiveDoc doc query includeExamples today
  | none => formatNotFound query framework

/-- Function `compareVersions(target, required)` of the Swift-evolution checker,
at the level of the already-parsed numeric components
(`v.split(".").map(Number)`; the destructuring
`[major, minor = 0]` reads the first two components and defaults a
missing minor to `0`). -/
def compareVersions (target required : List Nat) : Bool :=
  let targetMajor := target.getD 0 0
  let targetMinor := target.getD 1 0
  let reqMajor := required.getD 0 0
  let reqMinor := required.getD 1 0
  if targetMajor > reqMajor then true
  else if targetMajor < reqMajor then false
  else decide (targetMinor ≥ reqMinor)

/-- The version-compatibility note of `formatMatches` (lines 286–293):
the availability line is chosen by `compareVersions`. -/
def availabilityLine (swiftVersion proposalVersion : String)
    (target required : List Nat) : String :=
  if compareVersions target required then
    "✅ **Available in Swift " ++ swiftVersion ++ "**\n\n"
  else
    "⚠️ **Requires Swift " ++ proposalVersion ++ "** (you specified " ++ swiftVersion ++ ")\n\n"

set_option maxRecDepth 100000

/-- The matching loop in closed form: one optional finding per rule, in
declaration order. -/
theorem computeDiagnosticsL_eq (text : List Char) :
    computeDiagnosticsL text = ERROR_PATTERNS.filterMap (findingOf text) := by
  have aux : ∀ (rs : List ErrorRule) (acc : List DiagnosticResult),
      rs.foldl
        (fun acc r =>
          match firstMatchL r.pattern text with
          | some m => acc ++ [mkDiag r m (severityOf text)]
          | none => acc)
        acc = acc ++ rs.filterMap (findingOf text) := by
    intro rs
    induction rs with
    | nil => intro acc; simp
    | cons r rs ih =>
        intro acc
        cases h : firstMatchL r.pattern text with
        | none => simp [List.foldl_cons, h, ih, List.filterMap_cons, findingOf]
        | some m => simp [List.foldl_cons, h, ih, List.filterMap_cons, findingOf]
  simpa [computeDiagnosticsL] using aux ERROR_PATTERNS []

/-- Every produced diagnostic comes from some rule whose pattern matched,
and is exactly that rule's finding. -/
theorem mem_computeDiagnosticsL {text : List Char} {d : DiagnosticResult}
    (hd : d ∈ computeDiagnosticsL text) :
    ∃ r ∈ ERROR_PATTERNS, ∃ m, firstMatchL r.pattern text = some m
      ∧ d = mkDiag r m (severityOf text) := by
  rw [computeDiagnosticsL_eq] at hd
  rcases List.mem_filterMap.mp hd with ⟨r, hr, hfr⟩
  unfold findingOf at hfr
  cases h : firstMatchL r.pattern text with
  | none => rw [h] at hfr; simp at hfr
  | some m =>
      rw [h] at hfr
      simp only [Option.map_some'] at hfr
      exact ⟨r, hr, m, h, (Option.some_inj.mp hfr).symm⟩

/-- Projecting the findings to their categories gives exactly the types of
the matching rules, in declaration order. -/
theorem filterMap_map_type (text : List Char) :
    ∀ rs : List ErrorRule,
      (rs.filterMap (findingOf text)).map (fun d => d.errorType)
        = (rs.filter (fun r => (firstMatchL r.pattern text).isSome)).map (fun r => r.type) := by
  intro rs
  induction rs with
  | nil => rfl
  | cons r rs ih =>
      cases h : firstMatchL r.pattern text with
      | none => simp [List.filterMap_cons, List.filter_cons, findingOf, h, ih]
      | some m => simp [List.filterMap_cons, List.filter_cons, findingOf, h, ih, mkDiag]

/-- Restricting the findings to one category commutes with restricting the
rule table to that category. -/
theorem filterMap_filter_type (text : List Char) (T : String) :
    ∀ rs : List ErrorRule,
      (rs.filterMap (findingOf text)).filter (fun d => d.errorType == T)
        = (rs.filter (fun r => r.type == T)).filterMap (findingOf text) := by
  intro rs
  induction rs with
  | nil => rfl
  | cons r rs ih =>
      cases h : firstMatchL r.pattern text with
      | none =>
          cases hT : (r.type == T) <;>
            simp [List.filterMap_cons, List.filter_cons, findingOf, h, ih, hT, mkDiag]
      | some m =>
          cases hT : (r.type == T) <;>
            simp [List.filterMap_cons, List.filter_cons, findingOf, h, ih, hT, mkDiag]

/-- Claim C1: for every input log, `analyzeBuildLog` produces exactly one
finding per rule of `ERROR_PATTERNS` whose pattern matches somewhere in the
log — at most one per rule regardless of how many occurrences match — and
the findings are ordered by rule declaration, not by match position; the
rule scan never exits early, so every independently matching rule
contributes its own finding. -/
theorem findings_one_per_matching_rule (log : String) :
    (computeDiagnosticsL log.data).map (fun d => d.errorType)
      = (ERROR_PATTERNS.filter (fun r => (firstMatchL r.pattern log.data).isSome)).map
          (fun r => r.type)
    ∧ (computeDiagnosticsL log.data).length
      = (ERROR_PATTERNS.filter (fun r => (firstMatchL r.pattern log.data).isSome)).length := by
  have h1 : (computeDiagnosticsL log.data).map (fun d => d.errorType)
      = (ERROR_PATTERNS.filter (fun r => (firstMatchL r.pattern log.data).isSome)).map
          (fun r => r.type) := by
    rw [computeDiagnosticsL_eq]
    exact filterMap_map_type log.data ERROR_PATTERNS
  refine ⟨h1, ?_⟩
  have h2 := congrArg List.length h1
  simpa [List.length_map] using h2

/-- Claim C2: every finding of an invocation carries the same global
severity — `warning` exactly when the literal substring `"warning"` occurs
case-insensitively anywhere in the log, `error` otherwise — independent of
which rule matched or where. -/
theorem findings_severity_global (log : String) (d : DiagnosticResult)
    (hd : d ∈ computeDiagnosticsL log.data) :
    d.severity
      = (if hasLit "warning".data (lowerL log.data) then Severity.warning
         else Severity.error) := by
  rcases mem_computeDiagnosticsL hd with ⟨r, _, m, _, hdm⟩
  subst hdm
  rfl

/-- Claim C9: every finding ever produced has severity `error` or
`warning`; the third declared severity `note` is never produced. -/
theorem findings_severity_never_note (log : String) (d : DiagnosticResult)
    (hd : d ∈ computeDiagnosticsL log.data) :
    d.severity = Severity.error ∨ d.severity = Severity.warning := by
  rcases mem_computeDiagnosticsL hd with ⟨r, _, m, _, hdm⟩
  subst hdm
  show severityOf log.data = Severity.error ∨ severityOf log.data = Severity.warning
  unfold severityOf
  split
  · exact Or.inr rfl
  · exact Or.inl rfl

/-- Claim C5: whenever the pattern `cannot find type '(\w+)' in scope`
matches somewhere in the log, the report contains exactly one finding of
category "Type Not Found", and that finding's message is the full matched
substring (the pattern's first match). -/
theorem type_not_found_single_finding (log : String) (m : List Char)
    (h : firstMatchL typeNotFoundRule.pattern log.data = some m) :
    (computeDiagnosticsL log.data).countP (fun d => d.errorType == "Type Not Found") = 1
    ∧ ∀ d ∈ computeDiagnosticsL log.data,
        d.errorType = "Type Not Found" → d.message = String.mk m := by
  have hrules : ERROR_PATTERNS.filter (fun r => r.type == "Type Not Found")
      = [typeNotFoundRule] := by rfl
  have hfilter : (computeDiagnosticsL log.data).filter
      (fun d => d.errorType == "Type Not Found")
      = [mkDiag typeNotFoundRule m (severityOf log.data)] := by
    rw [computeDiagnosticsL_eq, filterMap_filter_type, hrules]
    simp [List.filterMap_cons, findingOf, h]
  constructor
  · rw [List.countP_eq_length_filter, hfilter]
    rfl
  · intro d hd hT
    have hmem : d ∈ (computeDiagnosticsL log.data).filter
        (fun d => d.errorType == "Type Not Found") :=
      List.mem_filter.mpr ⟨hd, by simp [hT]⟩
    rw [hfilter] at hmem
    have : d = mkDiag typeNotFoundRule m (severityOf log.data) := by
      simpa using hmem
    rw [this]
    rfl

/-- Lemma: `analyzeBuildLog` delegates to the fallback report whenever the rule
scan produced no diagnostics. -/
theorem analyzeBuildLog_of_no_match (log : String) (ec ctx : Option String)
    (hno : (computeDiagnosticsL log.data).length = 0) :
    analyzeBuildLog log ec ctx = analyzeUnknownError log ctx := by
  show (if (computeDiagnosticsL log.data).length = 0 then analyzeUnknownError log ctx
        else formatDiagnosticsL (computeDiagnosticsL log.data) log.data ctx)
      = analyzeUnknownError log ctx
  rw [hno]
  exact if_pos rfl

/-- Claim C3: when no rule matches and neither marker `error:` nor
`warning:` occurs case-insensitively in the log (in particular for the
empty log), `analyzeBuildLog` returns the fallback "no clear errors
detected" report — a fixed rendered text, for every `errorCode`/`context`;
the embedding is a total function, so no input raises an error. -/
theorem no_match_no_marker_fallback (log : String) (ec ctx : Option String)
    (hno : (computeDiagnosticsL log.data).length = 0)
    (he : hasErrorMarker log.data = false)
    (hw : hasWarningMarker log.data = false) :
    analyzeBuildLog log ec ctx = unknownHeader ++ (noClearBlock ++ unknownSuggestions) := by
  rw [analyzeBuildLog_of_no_match log ec ctx hno]
  unfold analyzeUnknownError
  rw [he, hw]
  rfl

/-- Claim C4: when no rule matches but a marker is present, the fallback
report's raw-log excerpt is exactly the first 2000 characters of the log,
followed by the truncation marker precisely when the log is longer than
2000 characters. -/
theorem fallback_excerpt_truncation (log : String) (ec ctx : Option String)
    (hno : (computeDiagnosticsL log.data).length = 0)
    (hmk : hasErrorMarker log.data = true ∨ hasWarningMarker log.data = true) :
    (2000 < log.data.length →
      analyzeBuildLog log ec ctx
        = unknownHeader
            ++ ((rawLogPre ++ String.mk (log.data.take 2000)
                  ++ (truncationMark ++ rawLogPost))
              ++ unknownSuggestions))
    ∧ (log.data.length ≤ 2000 →
      analyzeBuildLog log ec ctx
        = unknownHeader ++ ((rawLogPre ++ log ++ rawLogPost) ++ unknownSuggestions)) := by
  have hbranch : (!hasErrorMarker log.data && !hasWarningMarker log.data) = false := by
    rcases hmk with h | h <;> simp [h]
  rw [analyzeBuildLog_of_no_match log ec ctx hno]
  unfold analyzeUnknownError
  rw [hbranch]
  constructor
  · intro hlen
    simp only [Bool.false_eq_true, if_false, if_pos hlen]
  · intro hlen
    simp only [Bool.false_eq_true, if_false, if_neg (Nat.not_lt.mpr hlen)]
    rw [List.take_of_length_le hlen]
    have hmkdata : String.mk log.data = log := rfl
    rw [hmkdata]
    have hempty : ∀ s : String, ("" : String) ++ s = s := by
      intro s
      cases s
      rfl
    rw [hempty rawLogPost]

/-- Claim C6 counterexample: `errorCode` is accepted but never read by
`analyzeBuildLog` — with a log that produces a finding, supplying
`errorCode = "XYZ123"` yields an output identical to supplying no error
code at all, and the string `XYZ123` appears nowhere in the report, so the
error code is not attached to the report header. -/
theorem error_code_not_in_report :
    (computeDiagnosticsL "cannot use mutating member on immutable value".data).length = 1
    ∧ analyzeBuildLog "cannot use mutating member on immutable value" (some "XYZ123") none
        = analyzeBuildLog "cannot use mutating member on immutable value" none none
    ∧ hasLit "XYZ123".data
        (analyzeBuildLog "cannot use mutating member on immutable value"
          (some "XYZ123") none).data
      = false := ⟨by decide, rfl, by decide⟩

/-- String append acts on the underlying character lists. -/
theorem strDataAppend (a b : String) : (a ++ b).data = a.data ++ b.data := by
  cases a
  cases b
  rfl

/-- Claim C6, amended: `errorCode` and `context` never affect which rules
match; the output is entirely independent of `errorCode`; `context`, when
provided and non-empty, is attached verbatim to the header of the
matched-findings report (the fallback report ignores it). -/
theorem error_code_ignored_context_attached (log : String) (ec ec' : Option String)
    (c : String) (hne : (computeDiagnosticsL log.data).length ≠ 0) (hc : c ≠ "") :
    (∀ ctx : Option String, analyzeBuildLog log ec ctx = analyzeBuildLog log ec' ctx)
    ∧ ∃ rest : List Char,
        (analyzeBuildLog log ec (some c)).data
          = fmtHeader.data ++ "**Context:** ".data ++ c.data ++ "\n\n".data ++ rest := by
  constructor
  · intro ctx
    rfl
  · have hfmt : analyzeBuildLog log ec (some c)
        = formatDiagnosticsL (computeDiagnosticsL log.data) log.data (some c) := by
      show (if (computeDiagnosticsL log.data).length = 0 then analyzeUnknownError log (some c)
            else formatDiagnosticsL (computeDiagnosticsL log.data) log.data (some c))
          = formatDiagnosticsL (computeDiagnosticsL log.data) log.data (some c)
      rw [if_neg hne]
    rw [hfmt]
    have hctx : ctxBlock (some c) = "**Context:** " ++ c ++ "\n\n" := by
      simp [ctxBlock, hc]
    unfold formatDiagnosticsL
    rw [hctx]
    refine ⟨(countLine (computeDiagnosticsL log.data).length
        ++ String.join ((computeDiagnosticsL log.data).enum.map (fun p => diagBlock p.1 p.2))
        ++ generalTips).data, ?_⟩
    simp only [strDataAppend, List.append_assoc]

/-- Claim C7: the diagnostic tool is deterministic — its output is a
function of `(buildLog, errorCode, context)` alone; the ambient runtime
environment (in particular the clock, the one environmental input any tool
of this server reads) does not influence it, so two invocations with
identical inputs produce byte-identical output. -/
theorem analyzer_deterministic (env1 env2 : Env) (log : String) (ec ctx : Option String) :
    runXcodeDiagnosticTool env1 log ec ctx = runXcodeDiagnosticTool env2 log ec ctx := rfl

/-- Claim C8: whatever the remote documentation endpoint does on each
request — throws, returns a non-success status, returns a malformed body,
or returns a document — `fetchAppleDocs` returns a templated text result:
either a rendered live document or the not-found template.  No transport
error propagates to the caller (and the third template, `formatError`, is
never even reached, since `fetchLiveDoc` already catches every failure). -/
theorem fetch_docs_total_fallback (oracle : String → FetchOutcome) (today query : String)
    (framework : Option String) (includeExamples : Bool) :
    (∃ doc : AppleDocJSON,
        fetchAppleDocs oracle today query framework includeExamples
          = formatLiveDoc doc query includeExamples today)
    ∨ fetchAppleDocs oracle today query framework includeExamples
        = formatNotFound query framework := by
  cases h : fetchCascade oracle query framework with
  | some doc =>
      left
      refine ⟨doc, ?_⟩
      unfold fetchAppleDocs
      rw [h]
  | none =>
      right
      unfold fetchAppleDocs
      rw [h]

/-- Claim C10: for version strings whose dot-separated components parse as
numbers (modelled by their numeric component lists), `compareVersions`
reports the target as compatible exactly when the target's major version
exceeds the required major, or the majors are equal and the target's minor
(defaulting to 0 when absent) is at least the required minor; components
beyond major and minor are ignored. -/
theorem compare_versions_spec (target required : List Nat)
    (ht : target ≠ []) (hr : required ≠ []) :
    (compareVersions target required = true ↔
      (required.getD 0 0 < target.getD 0 0
        ∨ (target.getD 0 0 = required.getD 0 0 ∧ required.getD 1 0 ≤ target.getD 1 0)))
    ∧ compareVersions target required = compareVersions (target.take 2) (required.take 2) := by
  have hgetD : ∀ l : List Nat,
      (l.take 2).getD 0 0 = l.getD 0 0 ∧ (l.take 2).getD 1 0 = l.getD 1 0 := by
    intro l
    rcases l with _ | ⟨a, _ | ⟨b, t⟩⟩ <;> simp
  constructor
  · unfold compareVersions
    dsimp only
    split_ifs with h1 h2
    · exact iff_of_true rfl (Or.inl h1)
    · refine iff_of_false (by simp) ?_
      omega
    · rw [decide_eq_true_eq]
      omega
  · unfold compareVersions
    dsimp only
    rw [(hgetD target).1, (hgetD target).2, (hgetD required).1, (hgetD required).2]

/-- A pattern whose leading mandatory atom rejects `c` cannot match any
text starting with `c`. -/
theorem run_cons_eq_nil {r : Regex} {c : Char} (h : failsOn r c = true) (t : List Char) :
    r.run (c :: t) = [] := by
  induction r with
  | lit s =>
      cases s with
      | nil => simp [failsOn] at h
      | cons p ps =>
          have hc : (c == p) = false := by simpa [failsOn] using h
          simp [Regex.run, dropLit, hc]
  | wplus =>
      have hc : isWordChar c = false := by simpa [failsOn] using h
      simp [Regex.run, plusSuffixes, hc]
  | dplus =>
      have hc : isDotChar c = false := by simpa [failsOn] using h
      simp [Regex.run, plusSuffixes, hc]
  | optChar d => simp [failsOn] at h
  | seq a b iha _ihb =>
      have ha : failsOn a c = true := by simpa [failsOn] using h
      simp [Regex.run, iha ha]
  | alt a b iha ihb =>
      obtain ⟨h1, h2⟩ : failsOn a c = true ∧ failsOn b c = true := by
        simpa [failsOn] using h
      simp [Regex.run, iha h1, ihb h2]

/-- A pattern that demands at least one character cannot match the empty
text. -/
theorem run_nil_eq_nil {r : Regex} (h : emptyFails r = true) : r.run [] = [] := by
  induction r with
  | lit s =>
      cases s with
      | nil => simp [emptyFails] at h
      | cons p ps => simp [Regex.run, dropLit]
  | wplus => simp [Regex.run, plusSuffixes]
  | dplus => simp [Regex.run, plusSuffixes]
  | optChar d => simp [emptyFails] at h
  | seq a b iha _ihb =>
      have ha : emptyFails a = true := by simpa [emptyFails] using h
      simp [Regex.run, iha ha]
  | alt a b iha ihb =>
      obtain ⟨h1, h2⟩ : emptyFails a = true ∧ emptyFails b = true := by
        simpa [emptyFails] using h
      simp [Regex.run, iha h1, ihb h2]

/-- A pattern that fails on every character of the text (and on the empty
text) has no match anywhere in the text. -/
theorem findPos_eq_none_of_failsOn {r : Regex} (he : emptyFails r = true) :
    ∀ cs : List Char, (∀ c ∈ cs, failsOn r c = true) → findPos r cs = none := by
  intro cs
  induction cs with
  | nil =>
      intro _
      simp [findPos, findLen, run_nil_eq_nil he]
  | cons c cs ih =>
      intro hall
      have hc := hall c (List.mem_cons_self c cs)
      have hrest := ih (fun x hx => hall x (List.mem_cons_of_mem c hx))
      simp [findPos, findLen, run_cons_eq_nil hc, hrest]

/-- The characters of the long sample log. -/
theorem c4LongLog_data : c4LongLog.data = "error: ".data ++ List.replicate 2000 'x' := rfl

/-- The long sample log is already lowercase. -/
theorem c4LongLog_lower : lowerL c4LongLog.data = c4LongLog.data := by
  rw [c4LongLog_data]
  unfold lowerL
  rw [List.map_append, List.map_replicate]
  have h1 : "error: ".data.map lowerChar = "error: ".data := by decide
  have h2 : lowerChar 'x' = 'x' := by decide
  rw [h1, h2]

/-- No rule of the table matches the long sample log. -/
theorem c4LongLog_no_match :
    ∀ r ∈ ERROR_PATTERNS, firstMatchL r.pattern c4LongLog.data = none := by
  have hemp : ∀ r ∈ ERROR_PATTERNS, emptyFails r.pattern = true := by decide
  have hshort : ∀ c ∈ "error: ".data, ∀ r ∈ ERROR_PATTERNS, failsOn r.pattern c = true := by
    decide
  have hx : ∀ r ∈ ERROR_PATTERNS, failsOn r.pattern 'x' = true := by decide
  intro r hr
  unfold firstMatchL
  rw [c4LongLog_lower]
  rw [findPos_eq_none_of_failsOn (hemp r hr)]
  · rfl
  · intro c hc
    rw [c4LongLog_data] at hc
    rcases List.mem_append.mp hc with h | h
    · exact hshort c h r hr
    · rw [List.eq_of_mem_replicate h]
      exact hx r hr

/-- The long sample log produces no diagnostics. -/
theorem c4LongLog_empty_diags : (computeDiagnosticsL c4LongLog.data).length = 0 := by
  rw [computeDiagnosticsL_eq]
  have hnil : ERROR_PATTERNS.filterMap (findingOf c4LongLog.data) = [] := by
    rw [List.filterMap_eq_nil_iff]
    intro r hr
    unfold findingOf
    rw [c4LongLog_no_match r hr]
    rfl
  rw [hnil]
  rfl

/-- The long sample log exceeds the 2000-character excerpt limit. -/
theorem c4LongLog_len : 2000 < c4LongLog.data.length := by
  rw [c4LongLog_data, List.length_append, List.length_replicate]
  have h7 : "error: ".data.length = 7 := by decide
  omega

/-- Concrete check for claim C2: the log
`"warning: cannot use mutating member on immutable value"` yields the
mutability finding, and its severity is `warning` because the word
`warning` occurs in the log. -/
theorem findings_severity_global_check :
    mkDiag mutabilityRule "cannot use mutating member on immutable value".data
        Severity.warning
      ∈ computeDiagnosticsL "warning: cannot use mutating member on immutable value".data
    ∧ (mkDiag mutabilityRule "cannot use mutating member on immutable value".data
        Severity.warning).severity
      = (if hasLit "warning".data
            (lowerL "warning: cannot use mutating member on immutable value".data) then
          Severity.warning
        else Severity.error) :=
  ⟨by decide,
   findings_severity_global "warning: cannot use mutating member on immutable value"
     (mkDiag mutabilityRule "cannot use mutating member on immutable value".data
       Severity.warning)
     (by decide)⟩

/-- Concrete check for claim C9: the log
`"error: ambiguous use of 'foo'"` yields the ambiguity finding, whose
severity is `error` or `warning` (never `note`). -/
theorem findings_severity_never_note_check :
    mkDiag ambiguousUseRule "ambiguous use of 'foo'".data Severity.error
      ∈ computeDiagnosticsL "error: ambiguous use of 'foo'".data
    ∧ ((mkDiag ambiguousUseRule "ambiguous use of 'foo'".data Severity.error).severity
          = Severity.error
        ∨ (mkDiag ambiguousUseRule "ambiguous use of 'foo'".data Severity.error).severity
          = Severity.warning) :=
  ⟨by decide,
   findings_severity_never_note "error: ambiguous use of 'foo'"
     (mkDiag ambiguousUseRule "ambiguous use of 'foo'".data Severity.error)
     (by decide)⟩

/-- Concrete check for claim C3: the empty log matches no rule, carries no
marker, and produces the "no clear errors detected" fallback report. -/
theorem no_match_no_marker_fallback_check :
    (computeDiagnosticsL "".data).length = 0
    ∧ hasErrorMarker "".data = false
    ∧ hasWarningMarker "".data = false
    ∧ analyzeBuildLog "" none none = unknownHeader ++ (noClearBlock ++ unknownSuggestions) :=
  ⟨by decide, by decide, by decide,
   no_match_no_marker_fallback "" none none (by decide) (by decide) (by decide)⟩

/-- Concrete check for claim C4: a 2007-character log with an `error:`
marker and no rule match is excerpted to exactly its first 2000 characters
followed by the truncation marker. -/
theorem fallback_excerpt_truncation_check :
    (computeDiagnosticsL c4LongLog.data).length = 0
    ∧ hasErrorMarker c4LongLog.data = true
    ∧ 2000 < c4LongLog.data.length
    ∧ analyzeBuildLog c4LongLog none none
        = unknownHeader
            ++ ((rawLogPre ++ String.mk (c4LongLog.data.take 2000)
                  ++ (truncationMark ++ rawLogPost))
              ++ unknownSuggestions) :=
  ⟨c4LongLog_empty_diags, by decide, c4LongLog_len,
   (fallback_excerpt_truncation c4LongLog none none c4LongLog_empty_diags
      (Or.inl (by decide))).1 c4LongLog_len⟩

/-- Concrete check for claim C5: the log
`"cannot find type 'Foo' in scope"` is matched in full by the
type-not-found pattern, and exactly one "Type Not Found" finding results. -/
theorem type_not_found_single_finding_check :
    firstMatchL typeNotFoundRule.pattern "cannot find type 'Foo' in scope".data
        = some "cannot find type 'Foo' in scope".data
    ∧ (computeDiagnosticsL "cannot find type 'Foo' in scope".data).countP
        (fun d => d.errorType == "Type Not Found") = 1 :=
  ⟨by decide,
   (type_not_found_single_finding "cannot find type 'Foo' in scope"
      "cannot find type 'Foo' in scope".data (by decide)).1⟩

/-- Concrete check for the amended claim C6: with a matching log and the
non-empty context `"iOS 17"`, the report opens with the header followed by
the verbatim context line. -/
theorem error_code_ignored_context_attached_check :
    (computeDiagnosticsL "cannot use mutating member on immutable value".data).length = 1
    ∧ ∃ rest : List Char,
        (analyzeBuildLog "cannot use mutating member on immutable value" none
            (some "iOS 17")).data
          = fmtHeader.data ++ "**Context:** ".data ++ "iOS 17".data ++ "\n\n".data ++ rest :=
  ⟨by decide,
   (error_code_ignored_context_attached "cannot use mutating member on immutable value"
      none none "iOS 17" (by decide) (by decide)).2⟩

/-- Concrete check for claim C10: Swift 5.9.3 does not satisfy a 5.10
requirement, and the third version component is ignored. -/
theorem compare_versions_spec_check :
    (compareVersions [5, 9, 3] [5, 10] = true ↔
      (List.getD [5, 10] 0 0 < List.getD [5, 9, 3] 0 0
        ∨ (List.getD [5, 9, 3] 0 0 = List.getD [5, 10] 0 0
            ∧ List.getD [5, 10] 1 0 ≤ List.getD [5, 9, 3] 1 0)))
    ∧ compareVersions [5, 9, 3] [5, 10]
        = compareVersions (List.take 2 [5, 9, 3]) (List.take 2 [5, 10]) :=
  compare_versions_spec [5, 9, 3] [5, 10] (by decide) (by decide)
